import Mathlib

/-!
Shallow embedding of the remote-storage synchronization engine in
`pageserver/src/storage_sync.rs`.

Layer paths (`PathBuf` in the source) are modelled as natural numbers and
`HashSet<PathBuf>` as `Finset ℕ`; tenant and timeline ids (opaque 128-bit
ids) are modelled as naturals.  `TimelineMetadata` is opaque to the sync
engine except for its `disk_consistent_lsn` field; the remaining bytes are
collapsed into a single `payload` field so that two metadata values with
equal LSNs can still differ.
-/

namespace StorageSync

/-- `ZTenantTimelineId`: the pair (tenant id, timeline id). -/
structure ZTenantTimelineId where
  tenant_id : ℕ
  timeline_id : ℕ
  deriving DecidableEq, Repr

/-- `TimelineMetadata`: only `disk_consistent_lsn` is interpreted by the
sync engine; `payload` stands for the rest of the serialized record. -/
structure TimelineMetadata where
  disk_consistent_lsn : ℕ
  payload : ℕ
  deriving DecidableEq, Repr

/-- `TimelineUpload` from `storage_sync.rs`. -/
structure TimelineUpload where
  layers_to_upload : Finset ℕ
  uploaded_layers : Finset ℕ
  metadata : Option TimelineMetadata
  deriving DecidableEq

/-- `TimelineDownload` from `storage_sync.rs`. -/
structure TimelineDownload where
  layers_to_skip : Finset ℕ
  deriving DecidableEq

/-- `TimelineDelete` from `storage_sync.rs`. -/
structure TimelineDelete where
  layers_to_delete : Finset ℕ
  deleted_layers : Finset ℕ
  deletion_registered : Bool
  deriving DecidableEq

/-- `SyncData<T>`: task payload with its retry counter. -/
structure SyncData (T : Type) where
  retries : ℕ
  data : T
  deriving DecidableEq

/-- `SyncTask` from `storage_sync.rs`. -/
inductive SyncTask where
  | Download (d : SyncData TimelineDownload)
  | Upload (u : SyncData TimelineUpload)
  | Delete (x : SyncData TimelineDelete)
  deriving DecidableEq

/-- `SyncTask::download`. -/
def SyncTask.download (download_task : TimelineDownload) : SyncTask :=
  SyncTask.Download ⟨0, download_task⟩

/-- `SyncTask::upload`. -/
def SyncTask.upload (upload_task : TimelineUpload) : SyncTask :=
  SyncTask.Upload ⟨0, upload_task⟩

/-- `SyncTask::delete`. -/
def SyncTask.delete (delete_task : TimelineDelete) : SyncTask :=
  SyncTask.Delete ⟨0, delete_task⟩

/-- `SyncTaskBatch` from `storage_sync.rs`. -/
structure SyncTaskBatch where
  upload : Option (SyncData TimelineUpload)
  download : Option (SyncData TimelineDownload)
  delete : Option (SyncData TimelineDelete)
  deriving DecidableEq

/-- `SyncTaskBatch::default()`. -/
def SyncTaskBatch.default : SyncTaskBatch := ⟨none, none, none⟩

/-- Rust's `PartialOrd` `<=` on `Option<Lsn>`: `None` is below every
`Some`.  Used by the upload-merge metadata comparison in
`SyncTaskBatch::add`. -/
def optionLsnLe (a b : Option ℕ) : Bool :=
  match a, b with
  | none, _ => true
  | some _, none => false
  | some x, some y => decide (x ≤ y)

/-- `SyncTaskBatch::add` from `storage_sync.rs` (lines 628-683):
merges a new task into the per-timeline batch. -/
def SyncTaskBatch.add (self : SyncTaskBatch) (task : SyncTask) : SyncTaskBatch :=
  match task with
  | SyncTask.Download new_download =>
      match self.download with
      | some batch_download =>
          { self with
            download := some
              { retries := min batch_download.retries new_download.retries
                data :=
                  { layers_to_skip :=
                      batch_download.data.layers_to_skip ∪ new_download.data.layers_to_skip } } }
      | none => { self with download := some new_download }
  | SyncTask.Upload new_upload =>
      match self.upload with
      | some batch_upload =>
          let batch_data := batch_upload.data
          let new_data := new_upload.data
          { self with
            upload := some
              { retries := min batch_upload.retries new_upload.retries
                data :=
                  { layers_to_upload :=
                      batch_data.layers_to_upload ∪ new_data.layers_to_upload
                    uploaded_layers :=
                      batch_data.uploaded_layers ∪ new_data.uploaded_layers
                    metadata :=
                      if optionLsnLe
                          (batch_data.metadata.map TimelineMetadata.disk_consistent_lsn)
                          (new_data.metadata.map TimelineMetadata.disk_consistent_lsn)
                      then new_data.metadata
                      else batch_data.metadata } } }
      | none => { self with upload := some new_upload }
  | SyncTask.Delete new_delete =>
      match self.delete with
      | some batch_delete =>
          { self with
            delete := some
              { retries := min batch_delete.retries new_delete.retries
                data :=
                  { layers_to_delete :=
                      batch_delete.data.layers_to_delete ∪ new_delete.data.layers_to_delete
                    deleted_layers :=
                      batch_delete.data.deleted_layers ∪ new_delete.data.deleted_layers
                    deletion_registered := batch_delete.data.deletion_registered } } }
      | none => { self with delete := some new_delete }

/-- `SyncTaskBatch::new`. -/
def SyncTaskBatch.new (task : SyncTask) : SyncTaskBatch :=
  SyncTaskBatch.default.add task

/-- Modelled from the spec: the `RemoteTimeline` entry of the remote index
(`storage_sync/index.rs` is not part of the sources); §3 of the spec gives
its fields — metadata, stored layer paths, upload-failure set, and the
awaits-download flag. -/
structure RemoteTimeline where
  metadata : TimelineMetadata
  stored_files : Finset ℕ
  upload_failed_files : Finset ℕ
  awaits_download : Bool
  deriving DecidableEq

/-- Modelled from the spec: `RemoteTimeline::new(metadata)` creates an
entry with the given metadata and empty layer sets (§4.5: "create a new
entry with that metadata, `stored_files = uploaded_layers`"; the layers are
added right after creation in `update_remote_data`). -/
def RemoteTimeline.new (metadata : TimelineMetadata) : RemoteTimeline :=
  ⟨metadata, ∅, ∅, false⟩

/-- Modelled from the spec: `add_layers(id, paths)` of §4.1 — insert the
paths into `stored_files`. -/
def RemoteTimeline.add_timeline_layers (self : RemoteTimeline) (paths : Finset ℕ) :
    RemoteTimeline :=
  { self with stored_files := self.stored_files ∪ paths }

/-- Modelled from the spec: `remove_layers(id, paths)` of §4.1 — remove the
paths from `stored_files`. -/
def RemoteTimeline.remove_layers (self : RemoteTimeline) (paths : Finset ℕ) :
    RemoteTimeline :=
  { self with stored_files := self.stored_files \ paths }

/-- Modelled from the spec: `add_upload_failures(id, paths)` of §4.1 —
insert the paths into `upload_failed_files`. -/
def RemoteTimeline.add_upload_failures (self : RemoteTimeline) (paths : Finset ℕ) :
    RemoteTimeline :=
  { self with upload_failed_files := self.upload_failed_files ∪ paths }

/-- The in-memory remote index: `RemoteTimelineIndex` as a map from
`ZTenantTimelineId` to its entry. -/
def IndexMap : Type := ZTenantTimelineId → Option RemoteTimeline

/-- `RemoteIndex::empty()`. -/
def IndexMap.empty : IndexMap := fun _ => none

/-- `add_timeline_entry` / the functional counterpart of
`timeline_entry_mut` followed by a mutation: update the map at one key. -/
def IndexMap.setEntry (index : IndexMap) (sync_id : ZTenantTimelineId)
    (entry : RemoteTimeline) : IndexMap :=
  fun id => if id = sync_id then some entry else index id

/-- `RemoteDataUpdate` from `storage_sync.rs`. -/
inductive RemoteDataUpdate where
  | Upload (uploaded_data : TimelineUpload) (upload_failed : Bool)
  | Delete (layers_to_remove : Finset ℕ)

/-- Result of `update_remote_data`: the index after the in-memory mutation
(the mutation happens under the lock before the index-part upload, so it is
visible even when the function returns an error), whether an index part was
PUT to remote storage, and the `anyhow::Result<()>` outcome. -/
structure UpdateRemoteDataResult where
  newIndex : IndexMap
  uploadedIndexPart : Bool
  ok : Bool

/-- `update_remote_data` from `storage_sync.rs` (lines 1322-1404).
`uploadIndexPartOk` is the oracle for the success of the final
`upload_index_part` network PUT (including index-part serialization). -/
def update_remote_data (index : IndexMap) (sync_id : ZTenantTimelineId)
    (update : RemoteDataUpdate) (uploadIndexPartOk : Bool) : UpdateRemoteDataResult :=
  match index sync_id with
  | some existing_entry =>
      let updated : RemoteTimeline :=
        match update with
        | RemoteDataUpdate.Upload uploaded_data upload_failed =>
            let entry₁ :=
              match uploaded_data.metadata with
              | some new_metadata =>
                  if existing_entry.metadata.disk_consistent_lsn <
                      new_metadata.disk_consistent_lsn
                  then { existing_entry with metadata := new_metadata }
                  else existing_entry
              | none => existing_entry
            if upload_failed
            then entry₁.add_upload_failures uploaded_data.layers_to_upload
            else entry₁.add_timeline_layers uploaded_data.uploaded_layers
        | RemoteDataUpdate.Delete layers_to_remove =>
            existing_entry.remove_layers layers_to_remove
      { newIndex := index.setEntry sync_id updated
        uploadedIndexPart := uploadIndexPartOk
        ok := uploadIndexPartOk }
  | none =>
      match update with
      | RemoteDataUpdate.Upload uploaded_data upload_failed =>
          match uploaded_data.metadata with
          | none =>
              -- bail!: no upload metadata and no remote index entry
              { newIndex := index, uploadedIndexPart := false, ok := false }
          | some new_metadata =>
              let base := RemoteTimeline.new new_metadata
              let new_remote_timeline :=
                if upload_failed
                then base.add_upload_failures uploaded_data.layers_to_upload
                else base.add_timeline_layers uploaded_data.uploaded_layers
              { newIndex := index.setEntry sync_id new_remote_timeline
                uploadedIndexPart := uploadIndexPartOk
                ok := uploadIndexPartOk }
      | RemoteDataUpdate.Delete _ =>
          -- "No remote index entry for timeline, skipping deletion": Ok(())
          { newIndex := index, uploadedIndexPart := false, ok := true }

/-- Outcome of `delete_timeline_data`: the task pushed back onto the sync
queue (if rescheduled), the task handed to `delete_timeline_layers` for
blob deletion (if reached), the index afterwards and whether an index part
was uploaded, and the status passed to `register_sync_status`. -/
structure DeleteTimelineOutcome where
  rescheduled : Option (SyncData TimelineDelete)
  blobDeleteTask : Option (SyncData TimelineDelete)
  indexAfter : IndexMap
  uploadedIndexPart : Bool
  syncStatus : Bool

/-- `delete_timeline_data` from `storage_sync.rs` (lines 1200-1234).
`uploadIndexPartOk` is the oracle for the index-part PUT inside
`update_remote_data`; `blobDeleteOk` is the oracle for the result of
`delete_timeline_layers` (whose body lives in the `delete` submodule, not
in the sources). -/
def delete_timeline_data (index : IndexMap) (sync_id : ZTenantTimelineId)
    (new_delete_data : SyncData TimelineDelete)
    (uploadIndexPartOk : Bool) (blobDeleteOk : Bool) : DeleteTimelineOutcome :=
  if !new_delete_data.data.deletion_registered then
    let u := update_remote_data index sync_id
      (RemoteDataUpdate.Delete new_delete_data.data.layers_to_delete) uploadIndexPartOk
    if u.ok then
      let done := { new_delete_data with
        data := { new_delete_data.data with deletion_registered := true } }
      { rescheduled := none, blobDeleteTask := some done, indexAfter := u.newIndex
        uploadedIndexPart := u.uploadedIndexPart, syncStatus := blobDeleteOk }
    else
      { rescheduled := some { new_delete_data with retries := new_delete_data.retries + 1 }
        blobDeleteTask := none, indexAfter := u.newIndex
        uploadedIndexPart := u.uploadedIndexPart, syncStatus := false }
  else
    let done := { new_delete_data with
      data := { new_delete_data.data with deletion_registered := true } }
    { rescheduled := none, blobDeleteTask := some done, indexAfter := index
      uploadedIndexPart := false, syncStatus := blobDeleteOk }

/-- `std::ops::ControlFlow`. -/
inductive ControlFlow (B C : Type) where
  | Break (b : B)
  | Continue (c : C)
  deriving DecidableEq

/-- `validate_task_retries` from `storage_sync.rs` (lines 1406-1425),
returning the control-flow decision together with the number of seconds
slept before continuing.  The source computes the sleep as
`2.0_f64.powf(retries - 1).min(30.0)`; for every `retries ≥ 1` this f64
value equals `min 30 (2 ^ (retries - 1))` exactly (powers of two up to 30
are exact in f64, and any power ≥ 32 — or infinity — is clamped to 30). -/
def validate_task_retries {T : Type} (sync_data : SyncData T) (max_sync_errors : ℕ) :
    ControlFlow (SyncData T) (SyncData T) × ℕ :=
  let current_attempt := sync_data.retries
  if current_attempt ≥ max_sync_errors then
    (ControlFlow.Break sync_data, 0)
  else if current_attempt > 0 then
    (ControlFlow.Continue sync_data, min 30 (2 ^ (current_attempt - 1)))
  else
    (ControlFlow.Continue sync_data, 0)

/-- State accumulated by the batch-collection loop in
`sync_queue::next_task_batch`: the `tasks` map, its key set, and the
`batched_timelines` set (which holds only the *timeline* component of the
sync ids, as in the source). -/
structure NextBatchState where
  tasks : ZTenantTimelineId → Option SyncTaskBatch
  taskKeys : Finset ZTenantTimelineId
  batched_timelines : Finset ℕ

/-- One pull of `receiver.try_recv()` followed by
`tasks.entry(sync_id).or_default().add(new_task)` and
`batched_timelines.insert(sync_id.timeline_id)`. -/
def NextBatchState.pull (st : NextBatchState) (sync_id : ZTenantTimelineId)
    (new_task : SyncTask) : NextBatchState :=
  { tasks := fun id =>
      if id = sync_id
      then some (((st.tasks sync_id).getD SyncTaskBatch.default).add new_task)
      else st.tasks id
    taskKeys := insert sync_id st.taskKeys
    batched_timelines := insert sync_id.timeline_id st.batched_timelines }

/-- The `loop` of `sync_queue::next_task_batch`: the limit check happens at
the top of each iteration, before the next `try_recv`; an empty queue ends
the loop. -/
def next_task_batch_loop (max_timelines_to_sync : ℕ) :
    List (ZTenantTimelineId × SyncTask) → NextBatchState → NextBatchState
  | [], st => st
  | (sync_id, new_task) :: rest, st =>
      if st.batched_timelines.card ≥ max_timelines_to_sync then st
      else next_task_batch_loop max_timelines_to_sync rest (st.pull sync_id new_task)

/-- `sync_queue::next_task_batch` (lines 517-566): the pending queue is
modelled as a list; an empty list plays the role of the dropped sender
(`ControlFlow::Break`).  The first task is taken unconditionally, then the
loop drains further tasks. -/
def next_task_batch (queue : List (ZTenantTimelineId × SyncTask))
    (max_timelines_to_sync : ℕ) : ControlFlow Unit NextBatchState :=
  match queue with
  | [] => ControlFlow.Break ()
  | (first_sync_id, first_task) :: rest =>
      let st₀ : NextBatchState :=
        { tasks := fun id =>
            if id = first_sync_id then some (SyncTaskBatch.new first_task) else none
          taskKeys := {first_sync_id}
          batched_timelines := {first_sync_id.timeline_id} }
      ControlFlow.Continue (next_task_batch_loop max_timelines_to_sync rest st₀)

/-- `LocalTimelineInitStatus` from `storage_sync.rs`. -/
inductive LocalTimelineInitStatus where
  | LocallyComplete
  | NeedsSync
  deriving DecidableEq, Repr

/-- `LocalTimelineInitStatuses`: nested map tenant → timeline → status,
modelled as a function. -/
def LocalTimelineInitStatuses : Type := ℕ → ℕ → Option LocalTimelineInitStatus

/-- `HashMap::entry(tenant).or_default().insert(timeline, status)` on the
nested status map. -/
def LocalTimelineInitStatuses.insertStatus (m : LocalTimelineInitStatuses)
    (tenant timeline : ℕ) (status : LocalTimelineInitStatus) : LocalTimelineInitStatuses :=
  fun t tl => if t = tenant ∧ tl = timeline then some status else m t tl

/-- `compare_local_and_remote_timeline` (lines 1517-1566), returning the
(status, awaits_download) pair together with the tasks pushed onto
`new_sync_tasks`, in push order. -/
def compare_local_and_remote_timeline (sync_id : ZTenantTimelineId)
    (local_metadata : TimelineMetadata) (local_files : Finset ℕ)
    (remote_entry : RemoteTimeline) :
    (LocalTimelineInitStatus × Bool) × List (ZTenantTimelineId × SyncTask) :=
  let remote_files := remote_entry.stored_files
  let number_of_layers_to_download := (remote_files \ local_files).card
  let step₁ :
      (LocalTimelineInitStatus × Bool) × List (ZTenantTimelineId × SyncTask) :=
    if number_of_layers_to_download > 0 then
      ((LocalTimelineInitStatus.NeedsSync, true),
        [(sync_id, SyncTask.download ⟨local_files⟩)])
    else ((LocalTimelineInitStatus.LocallyComplete, false), [])
  let layers_to_upload := local_files \ remote_files
  let step₂ : List (ZTenantTimelineId × SyncTask) :=
    if layers_to_upload ≠ ∅ then
      [(sync_id, SyncTask.upload ⟨layers_to_upload, ∅, some local_metadata⟩)]
    else []
  (step₁.1, step₁.2 ++ step₂)

/-- State threaded through the `schedule_first_sync_tasks` iteration: the
remote index being mutated, the status map being built, and the
`new_sync_tasks` deque (in push order; the source pushes all of them to the
sync queue at the end). -/
structure ScheduleState where
  index : IndexMap
  statuses : LocalTimelineInitStatuses
  new_sync_tasks : List (ZTenantTimelineId × SyncTask)

/-- One iteration of the `for` loop in `schedule_first_sync_tasks`. -/
def schedule_first_sync_tasks_step (st : ScheduleState)
    (e : ZTenantTimelineId × TimelineMetadata × Finset ℕ) : ScheduleState :=
  let sync_id := e.1
  let local_metadata := e.2.1
  let local_files := e.2.2
  match st.index sync_id with
  | some remote_timeline =>
      let r := compare_local_and_remote_timeline sync_id local_metadata local_files
        remote_timeline
      { index := st.index.setEntry sync_id
          { remote_timeline with awaits_download := r.1.2 }
        statuses := st.statuses.insertStatus sync_id.tenant_id sync_id.timeline_id r.1.1
        new_sync_tasks := st.new_sync_tasks ++ r.2 }
  | none =>
      { index := st.index
        statuses := st.statuses.insertStatus sync_id.tenant_id sync_id.timeline_id
          LocalTimelineInitStatus.LocallyComplete
        new_sync_tasks := st.new_sync_tasks ++
          [(sync_id, SyncTask.upload ⟨local_files, ∅, some local_metadata⟩)] }

/-- `schedule_first_sync_tasks` (lines 1456-1515).  The
`local_timeline_files` hash map is modelled as a list of key/value pairs
(its keys are unique in the source; theorems that need this uniqueness
assume `Nodup` on the keys). -/
def schedule_first_sync_tasks (index : IndexMap)
    (local_timeline_files : List (ZTenantTimelineId × TimelineMetadata × Finset ℕ)) :
    ScheduleState :=
  local_timeline_files.foldl schedule_first_sync_tasks_step
    ⟨index, fun _ _ => none, []⟩

/-- `SyncStartupData`, extended with a flag recording whether the sync
thread was spawned (the `None` config branch never spawns it). -/
structure SyncStartupData where
  remote_index : IndexMap
  local_timeline_init_statuses : LocalTimelineInitStatuses
  syncLoopStarted : Bool

/-- `start_local_timeline_sync` (lines 252-306).  The local filesystem scan
`local_tenant_timeline_files` is passed in as `local_timeline_files` (the
timelines that had a readable metadata file); the whole
remote-storage branch is delegated to the abstract
`spawn_thread` parameter, exactly as the source delegates to
`spawn_storage_sync_thread`.  `none` models an `Err` result. -/
def start_local_timeline_sync
    (spawn_thread : Unit → Option SyncStartupData)
    (local_timeline_files : List (ZTenantTimelineId × TimelineMetadata × Finset ℕ))
    (remote_storage_config : Option Unit) : Option SyncStartupData :=
  match remote_storage_config with
  | some _ => spawn_thread ()
  | none =>
      let statuses := local_timeline_files.foldl
        (fun (acc : LocalTimelineInitStatuses) e =>
          acc.insertStatus e.1.tenant_id e.1.timeline_id
            LocalTimelineInitStatus.LocallyComplete)
        (fun _ _ => none)
      some
        { remote_index := IndexMap.empty
          local_timeline_init_statuses := statuses
          syncLoopStarted := false }

/-! ## Helper lemmas -/

theorem optionLsnLe_refl (a : Option ℕ) : optionLsnLe a a = true := by
  cases a <;> simp [optionLsnLe]

/-! ## Claim theorems -/

/-- C4: `validate_task_retries` returns `Break` with the unchanged task
exactly when `retries ≥ max_sync_errors`; otherwise it returns `Continue`
with the unchanged task, sleeping `min 30 (2 ^ (retries - 1))` seconds when
`retries > 0` and not sleeping at all when `retries = 0`. -/
theorem validate_task_retries_spec {T : Type} (sync_data : SyncData T)
    (max_sync_errors : ℕ) :
    ((validate_task_retries sync_data max_sync_errors).1 =
        ControlFlow.Break sync_data ↔ sync_data.retries ≥ max_sync_errors) ∧
    (sync_data.retries < max_sync_errors →
      (validate_task_retries sync_data max_sync_errors).1 =
        ControlFlow.Continue sync_data) ∧
    (sync_data.retries < max_sync_errors → sync_data.retries > 0 →
      (validate_task_retries sync_data max_sync_errors).2 =
        min 30 (2 ^ (sync_data.retries - 1))) ∧
    (sync_data.retries = 0 →
      (validate_task_retries sync_data max_sync_errors).2 = 0) := by
  unfold validate_task_retries
  by_cases hge : sync_data.retries ≥ max_sync_errors
  · simp [hge]
  · by_cases hpos : sync_data.retries > 0
    · simp [hge, hpos]
      omega
    · simp [hge, hpos]

/-- Witness for C4 at a concrete input: `retries = 3`, `max_sync_errors = 5`. -/
theorem validate_task_retries_spec_witness :
    ((validate_task_retries (⟨3, TimelineDownload.mk ∅⟩ : SyncData TimelineDownload) 5).1 =
        ControlFlow.Break ⟨3, TimelineDownload.mk ∅⟩ ↔ (3 : ℕ) ≥ 5) ∧
    ((3 : ℕ) < 5 →
      (validate_task_retries (⟨3, TimelineDownload.mk ∅⟩ : SyncData TimelineDownload) 5).1 =
        ControlFlow.Continue ⟨3, TimelineDownload.mk ∅⟩) ∧
    ((3 : ℕ) < 5 → (3 : ℕ) > 0 →
      (validate_task_retries (⟨3, TimelineDownload.mk ∅⟩ : SyncData TimelineDownload) 5).2 =
        min 30 (2 ^ (3 - 1))) ∧
    ((3 : ℕ) = 0 →
      (validate_task_retries (⟨3, TimelineDownload.mk ∅⟩ : SyncData TimelineDownload) 5).2 = 0) :=
  validate_task_retries_spec (⟨3, TimelineDownload.mk ∅⟩ : SyncData TimelineDownload) 5

/-- C2 counterexample: merging a Delete task whose `deletion_registered` is
`true` into a batch whose existing Delete task has the flag `false` yields
a merged task whose flag is `false`, although one side's flag is `true` —
`SyncTaskBatch::add` keeps the batch side's flag and never reads the new
task's flag. -/
theorem delete_merge_drops_new_registered_flag :
    ((SyncTaskBatch.mk none none
          (some ⟨0, ⟨∅, ∅, false⟩⟩)).add
        (SyncTask.Delete ⟨0, ⟨∅, ∅, true⟩⟩)).delete.map
        (fun d => d.data.deletion_registered) ≠ some true := by
  decide

/-- C2 amended: for every pair of Delete tasks merged by
`SyncTaskBatch::add`, the merged task's `layers_to_delete` and
`deleted_layers` are the unions of the two sides and its `retries` is the
minimum of the two, but its `deletion_registered` flag is the flag of the
task already in the batch (the new task's flag is discarded). -/
theorem delete_merge_spec (b : SyncTaskBatch)
    (old fresh : SyncData TimelineDelete)
    (h : b.delete = some old) :
    (b.add (SyncTask.Delete fresh)).delete = some
      ⟨min old.retries fresh.retries,
        ⟨old.data.layers_to_delete ∪ fresh.data.layers_to_delete,
          old.data.deleted_layers ∪ fresh.data.deleted_layers,
          old.data.deletion_registered⟩⟩ := by
  simp [SyncTaskBatch.add, h]

/-- Witness for the amended C2 at concrete inputs. -/
theorem delete_merge_spec_witness :
    ((SyncTaskBatch.mk none none
          (some ⟨2, ⟨{1}, ∅, false⟩⟩)).add
        (SyncTask.Delete ⟨5, ⟨{2}, {3}, true⟩⟩)).delete = some
      ⟨min 2 5, ⟨{1} ∪ {2}, ∅ ∪ {3}, false⟩⟩ :=
  delete_merge_spec (SyncTaskBatch.mk none none (some ⟨2, ⟨{1}, ∅, false⟩⟩))
    ⟨2, ⟨{1}, ∅, false⟩⟩ ⟨5, ⟨{2}, {3}, true⟩⟩ rfl

/-- C7: for every pair of Upload tasks merged by `SyncTaskBatch::add`, both
carrying metadata, the merged task's `layers_to_upload` and
`uploaded_layers` are the unions of the two sides, its `retries` is the
minimum of the two, and the kept metadata is the one with the greater
`disk_consistent_lsn`, the new task's metadata winning ties. -/
theorem upload_merge_spec (b : SyncTaskBatch)
    (old fresh : SyncData TimelineUpload) (m₁ m₂ : TimelineMetadata)
    (h : b.upload = some old)
    (h₁ : old.data.metadata = some m₁)
    (h₂ : fresh.data.metadata = some m₂) :
    (b.add (SyncTask.Upload fresh)).upload = some
      ⟨min old.retries fresh.retries,
        ⟨old.data.layers_to_upload ∪ fresh.data.layers_to_upload,
          old.data.uploaded_layers ∪ fresh.data.uploaded_layers,
          some (if m₁.disk_consistent_lsn ≤ m₂.disk_consistent_lsn
            then m₂ else m₁)⟩⟩ := by
  simp [SyncTaskBatch.add, h, h₁, h₂, optionLsnLe]
  by_cases hle : m₁.disk_consistent_lsn ≤ m₂.disk_consistent_lsn
  · simp [hle, h₂]
  · simp [hle, h₁]

/-- Witness for C7 at concrete inputs: old LSN 7 ties new LSN 7, the new
task's metadata (payload 1) wins. -/
theorem upload_merge_spec_witness :
    ((SyncTaskBatch.mk (some ⟨4, ⟨{1}, ∅, some ⟨7, 0⟩⟩⟩) none none).add
        (SyncTask.Upload ⟨1, ⟨{2}, {3}, some ⟨7, 1⟩⟩⟩)).upload = some
      ⟨min 4 1, ⟨{1} ∪ {2}, ∅ ∪ {3},
        some (if (7 : ℕ) ≤ 7 then (⟨7, 1⟩ : TimelineMetadata) else ⟨7, 0⟩)⟩⟩ :=
  upload_merge_spec (SyncTaskBatch.mk (some ⟨4, ⟨{1}, ∅, some ⟨7, 0⟩⟩⟩) none none)
    ⟨4, ⟨{1}, ∅, some ⟨7, 0⟩⟩⟩ ⟨1, ⟨{2}, {3}, some ⟨7, 1⟩⟩⟩ ⟨7, 0⟩ ⟨7, 1⟩
    rfl rfl rfl

/-- C8: batch merging is idempotent — adding the same task twice in a row
yields the same batch as adding it once. -/
theorem sync_task_batch_add_idempotent (b : SyncTaskBatch) (t : SyncTask) :
    (b.add t).add t = b.add t := by
  cases t with
  | Download d =>
      cases hb : b.download with
      | none =>
          simp [SyncTaskBatch.add, hb, Finset.union_self]
      | some bd =>
          simp [SyncTaskBatch.add, hb, Finset.union_assoc, Finset.union_self,
            min_assoc, min_self]
  | Upload u =>
      cases hb : b.upload with
      | none =>
          simp only [SyncTaskBatch.add, hb]
          cases hc : optionLsnLe (u.data.metadata.map TimelineMetadata.disk_consistent_lsn)
            (u.data.metadata.map TimelineMetadata.disk_consistent_lsn) with
          | true =>
              simp [hc, Finset.union_self, min_self]
          | false =>
              rw [optionLsnLe_refl] at hc
              cases hc
      | some bu =>
          simp only [SyncTaskBatch.add, hb]
          cases hc : optionLsnLe (bu.data.metadata.map TimelineMetadata.disk_consistent_lsn)
            (u.data.metadata.map TimelineMetadata.disk_consistent_lsn) with
          | true =>
              simp [hc, optionLsnLe_refl, Finset.union_assoc, Finset.union_self,
                min_assoc, min_self]
          | false =>
              simp [hc, Finset.union_assoc, Finset.union_self, min_assoc, min_self]
  | Delete x =>
      cases hb : b.delete with
      | none =>
          simp [SyncTaskBatch.add, hb, Finset.union_self]
      | some bx =>
          simp [SyncTaskBatch.add, hb, Finset.union_assoc, Finset.union_self,
            min_assoc, min_self]

/-- Helper for C9: folding `LocallyComplete` insertions preserves a
`LocallyComplete` value already present in the accumulator. -/
theorem foldl_insert_locally_complete_preserves
    (l : List (ZTenantTimelineId × TimelineMetadata × Finset ℕ))
    (acc : LocalTimelineInitStatuses) (t tl : ℕ)
    (h : acc t tl = some LocalTimelineInitStatus.LocallyComplete) :
    l.foldl
      (fun (acc : LocalTimelineInitStatuses) e =>
        acc.insertStatus e.1.tenant_id e.1.timeline_id
          LocalTimelineInitStatus.LocallyComplete) acc t tl =
      some LocalTimelineInitStatus.LocallyComplete := by
  induction l generalizing acc with
  | nil => exact h
  | cons e rest ih =>
      apply ih
      simp only [LocalTimelineInitStatuses.insertStatus]
      by_cases hc : t = e.1.tenant_id ∧ tl = e.1.timeline_id
      · simp [hc]
      · simp [hc, h]

/-- Helper for C9: every key of the list gets status `LocallyComplete`
after the fold. -/
theorem foldl_insert_locally_complete_mem
    (l : List (ZTenantTimelineId × TimelineMetadata × Finset ℕ))
    (acc : LocalTimelineInitStatuses)
    (e : ZTenantTimelineId × TimelineMetadata × Finset ℕ) (hmem : e ∈ l) :
    l.foldl
      (fun (acc : LocalTimelineInitStatuses) x =>
        acc.insertStatus x.1.tenant_id x.1.timeline_id
          LocalTimelineInitStatus.LocallyComplete) acc
      e.1.tenant_id e.1.timeline_id = some LocalTimelineInitStatus.LocallyComplete := by
  induction l generalizing acc with
  | nil => cases hmem
  | cons x rest ih =>
      rcases List.mem_cons.mp hmem with heq | htail
      · subst heq
        simp only [List.foldl_cons]
        apply foldl_insert_locally_complete_preserves
        simp [LocalTimelineInitStatuses.insertStatus]
      · exact ih _ htail

/-- C9: with no `remote_storage_config`, `start_local_timeline_sync`
returns successfully with an empty remote index, assigns `LocallyComplete`
to every locally discovered timeline, and starts no sync loop. -/
theorem start_local_timeline_sync_no_remote_storage
    (spawn_thread : Unit → Option SyncStartupData)
    (local_timeline_files : List (ZTenantTimelineId × TimelineMetadata × Finset ℕ)) :
    ∃ d, start_local_timeline_sync spawn_thread local_timeline_files none = some d ∧
      d.remote_index = IndexMap.empty ∧
      d.syncLoopStarted = false ∧
      ∀ e ∈ local_timeline_files,
        d.local_timeline_init_statuses e.1.tenant_id e.1.timeline_id =
          some LocalTimelineInitStatus.LocallyComplete := by
  refine ⟨_, rfl, rfl, rfl, ?_⟩
  intro e hmem
  exact foldl_insert_locally_complete_mem local_timeline_files _ e hmem

/-- Witness for C9 at a concrete input: two locally discovered timelines,
no remote storage config. -/
theorem start_local_timeline_sync_no_remote_storage_witness :
    ∃ d, start_local_timeline_sync (fun _ => none)
        [(⟨0, 1⟩, ⟨10, 0⟩, ({3} : Finset ℕ)), (⟨2, 4⟩, ⟨20, 0⟩, (∅ : Finset ℕ))]
        none = some d ∧
      d.remote_index = IndexMap.empty ∧
      d.syncLoopStarted = false ∧
      ∀ e ∈ [((⟨0, 1⟩ : ZTenantTimelineId), (⟨10, 0⟩ : TimelineMetadata), ({3} : Finset ℕ)),
          (⟨2, 4⟩, ⟨20, 0⟩, (∅ : Finset ℕ))],
        d.local_timeline_init_statuses e.1.tenant_id e.1.timeline_id =
          some LocalTimelineInitStatus.LocallyComplete :=
  start_local_timeline_sync_no_remote_storage (fun _ => none)
    [(⟨0, 1⟩, ⟨10, 0⟩, {3}), (⟨2, 4⟩, ⟨20, 0⟩, ∅)]

/-- C10: a Delete update for a timeline with no remote index entry returns
success without creating an entry and without uploading any index part, so
`delete_timeline_data` marks `deletion_registered` and hands the task to
blob deletion even though no index object was rewritten. -/
theorem delete_update_without_remote_entry (index : IndexMap)
    (sync_id : ZTenantTimelineId) (s : Finset ℕ)
    (task : SyncData TimelineDelete) (uploadIndexPartOk blobDeleteOk : Bool)
    (hnone : index sync_id = none)
    (hreg : task.data.deletion_registered = false) :
    update_remote_data index sync_id (RemoteDataUpdate.Delete s) uploadIndexPartOk =
      ⟨index, false, true⟩ ∧
    (delete_timeline_data index sync_id task uploadIndexPartOk blobDeleteOk).blobDeleteTask =
      some { task with data := { task.data with deletion_registered := true } } ∧
    (delete_timeline_data index sync_id task uploadIndexPartOk blobDeleteOk).uploadedIndexPart =
      false ∧
    (delete_timeline_data index sync_id task uploadIndexPartOk blobDeleteOk).indexAfter =
      index := by
  have hupd : update_remote_data index sync_id (RemoteDataUpdate.Delete s) uploadIndexPartOk =
      ⟨index, false, true⟩ := by
    simp [update_remote_data, hnone]
  refine ⟨hupd, ?_⟩
  simp [delete_timeline_data, hreg, update_remote_data, hnone]

/-- Witness for C10 at a concrete input: empty index, one-layer delete
task, both oracles `false` (the result does not depend on them). -/
theorem delete_update_without_remote_entry_witness :
    update_remote_data IndexMap.empty ⟨0, 1⟩ (RemoteDataUpdate.Delete {5}) false =
      ⟨IndexMap.empty, false, true⟩ ∧
    (delete_timeline_data IndexMap.empty ⟨0, 1⟩
        (⟨0, ⟨{5}, ∅, false⟩⟩ : SyncData TimelineDelete) false false).blobDeleteTask =
      some ⟨0, ⟨{5}, ∅, true⟩⟩ ∧
    (delete_timeline_data IndexMap.empty ⟨0, 1⟩
        (⟨0, ⟨{5}, ∅, false⟩⟩ : SyncData TimelineDelete) false false).uploadedIndexPart =
      false ∧
    (delete_timeline_data IndexMap.empty ⟨0, 1⟩
        (⟨0, ⟨{5}, ∅, false⟩⟩ : SyncData TimelineDelete) false false).indexAfter =
      IndexMap.empty :=
  delete_update_without_remote_entry IndexMap.empty ⟨0, 1⟩ {5}
    ⟨0, ⟨{5}, ∅, false⟩⟩ false false rfl rfl

/-- C1: for a Delete task with `deletion_registered = false` on a timeline
with a remote index entry, the driver first removes `layers_to_delete` from
the entry and uploads the rewritten index part; if that index update fails,
the task is rescheduled with `retries + 1` and no blob deletion happens; if
it succeeds, the task handed to blob deletion has
`deletion_registered = true` (retries and layer sets unchanged). -/
theorem delete_protocol_index_first (index : IndexMap)
    (sync_id : ZTenantTimelineId) (task : SyncData TimelineDelete)
    (entry : RemoteTimeline) (uploadIndexPartOk blobDeleteOk : Bool)
    (hreg : task.data.deletion_registered = false)
    (hentry : index sync_id = some entry) :
    (uploadIndexPartOk = false →
      (delete_timeline_data index sync_id task uploadIndexPartOk blobDeleteOk).blobDeleteTask =
        none ∧
      (delete_timeline_data index sync_id task uploadIndexPartOk blobDeleteOk).rescheduled =
        some { task with retries := task.retries + 1 } ∧
      (delete_timeline_data index sync_id task uploadIndexPartOk blobDeleteOk).uploadedIndexPart =
        false) ∧
    (uploadIndexPartOk = true →
      (delete_timeline_data index sync_id task uploadIndexPartOk blobDeleteOk).rescheduled =
        none ∧
      (delete_timeline_data index sync_id task uploadIndexPartOk blobDeleteOk).blobDeleteTask =
        some ⟨task.retries,
          ⟨task.data.layers_to_delete, task.data.deleted_layers, true⟩⟩ ∧
      (delete_timeline_data index sync_id task uploadIndexPartOk blobDeleteOk).uploadedIndexPart =
        true ∧
      (delete_timeline_data index sync_id task uploadIndexPartOk blobDeleteOk).indexAfter
          sync_id =
        some { entry with
          stored_files := entry.stored_files \ task.data.layers_to_delete }) := by
  constructor
  · intro hfail
    subst hfail
    simp [delete_timeline_data, hreg, update_remote_data, hentry]
  · intro hok
    subst hok
    simp [delete_timeline_data, hreg, update_remote_data, hentry,
      IndexMap.setEntry, RemoteTimeline.remove_layers]

/-- Witness for C1 at a concrete input: entry stores `{5, 6}`, the task
deletes `{5}`; both oracle outcomes are exercised through the two
implications (the `false` branch holds vacuously for oracle `true` and
vice versa, so instantiating at oracle `true` exercises the success arm). -/
theorem delete_protocol_index_first_witness :
    (true = false →
      (delete_timeline_data (IndexMap.empty.setEntry ⟨0, 1⟩ ⟨⟨9, 0⟩, {5, 6}, ∅, false⟩)
          ⟨0, 1⟩ (⟨2, ⟨{5}, ∅, false⟩⟩ : SyncData TimelineDelete) true true).blobDeleteTask =
        none ∧
      (delete_timeline_data (IndexMap.empty.setEntry ⟨0, 1⟩ ⟨⟨9, 0⟩, {5, 6}, ∅, false⟩)
          ⟨0, 1⟩ (⟨2, ⟨{5}, ∅, false⟩⟩ : SyncData TimelineDelete) true true).rescheduled =
        some ⟨2 + 1, ⟨{5}, ∅, false⟩⟩ ∧
      (delete_timeline_data (IndexMap.empty.setEntry ⟨0, 1⟩ ⟨⟨9, 0⟩, {5, 6}, ∅, false⟩)
          ⟨0, 1⟩ (⟨2, ⟨{5}, ∅, false⟩⟩ : SyncData TimelineDelete) true true).uploadedIndexPart =
        false) ∧
    (true = true →
      (delete_timeline_data (IndexMap.empty.setEntry ⟨0, 1⟩ ⟨⟨9, 0⟩, {5, 6}, ∅, false⟩)
          ⟨0, 1⟩ (⟨2, ⟨{5}, ∅, false⟩⟩ : SyncData TimelineDelete) true true).rescheduled =
        none ∧
      (delete_timeline_data (IndexMap.empty.setEntry ⟨0, 1⟩ ⟨⟨9, 0⟩, {5, 6}, ∅, false⟩)
          ⟨0, 1⟩ (⟨2, ⟨{5}, ∅, false⟩⟩ : SyncData TimelineDelete) true true).blobDeleteTask =
        some ⟨2, ⟨{5}, ∅, true⟩⟩ ∧
      (delete_timeline_data (IndexMap.empty.setEntry ⟨0, 1⟩ ⟨⟨9, 0⟩, {5, 6}, ∅, false⟩)
          ⟨0, 1⟩ (⟨2, ⟨{5}, ∅, false⟩⟩ : SyncData TimelineDelete) true true).uploadedIndexPart =
        true ∧
      (delete_timeline_data (IndexMap.empty.setEntry ⟨0, 1⟩ ⟨⟨9, 0⟩, {5, 6}, ∅, false⟩)
          ⟨0, 1⟩ (⟨2, ⟨{5}, ∅, false⟩⟩ : SyncData TimelineDelete) true true).indexAfter
          ⟨0, 1⟩ =
        some ⟨⟨9, 0⟩, ({5, 6} : Finset ℕ) \ {5}, ∅, false⟩) :=
  delete_protocol_index_first (IndexMap.empty.setEntry ⟨0, 1⟩ ⟨⟨9, 0⟩, {5, 6}, ∅, false⟩)
    ⟨0, 1⟩ ⟨2, ⟨{5}, ∅, false⟩⟩ ⟨⟨9, 0⟩, {5, 6}, ∅, false⟩ true true rfl rfl

/-- C5: no call to `update_remote_data` decreases an existing entry's
`metadata.disk_consistent_lsn`; an upload replaces the stored metadata only
when its LSN is strictly greater, and delete updates never modify the
metadata. -/
theorem update_remote_data_lsn_monotone (index : IndexMap)
    (sync_id id : ZTenantTimelineId) (update : RemoteDataUpdate) (ok : Bool)
    (e e' : RemoteTimeline)
    (h : index id = some e)
    (h' : (update_remote_data index sync_id update ok).newIndex id = some e') :
    e.metadata.disk_consistent_lsn ≤ e'.metadata.disk_consistent_lsn ∧
    (∀ s, update = RemoteDataUpdate.Delete s → e'.metadata = e.metadata) ∧
    (∀ ud uf, update = RemoteDataUpdate.Upload ud uf →
      e'.metadata = e.metadata ∨
        ∃ m, ud.metadata = some m ∧
          e.metadata.disk_consistent_lsn < m.disk_consistent_lsn ∧
          e'.metadata = m) := by
  by_cases hid : id = sync_id
  · subst hid
    rw [update_remote_data.eq_def, h] at h'
    cases update with
    | Upload ud uf =>
        simp only [IndexMap.setEntry, eq_self_iff_true, if_true,
          Option.some.injEq] at h'
        subst h'
        cases hm : ud.metadata with
        | none =>
            cases uf <;>
              simp [hm, RemoteTimeline.add_upload_failures,
                RemoteTimeline.add_timeline_layers]
        | some m =>
            by_cases hlt : e.metadata.disk_consistent_lsn < m.disk_consistent_lsn
            · cases uf <;>
                · simp [hm, hlt, RemoteTimeline.add_upload_failures,
                    RemoteTimeline.add_timeline_layers]
                  exact Nat.le_of_lt hlt
            · cases uf <;>
                simp [hm, hlt, RemoteTimeline.add_upload_failures,
                  RemoteTimeline.add_timeline_layers]
    | Delete s =>
        simp only [IndexMap.setEntry, eq_self_iff_true, if_true,
          Option.some.injEq] at h'
        subst h'
        simp [RemoteTimeline.remove_layers]
  · have hsame : (update_remote_data index sync_id update ok).newIndex id = index id := by
      rw [update_remote_data.eq_def]
      cases hentry : index sync_id with
      | some ex =>
          cases update <;> simp [IndexMap.setEntry, hid]
      | none =>
          cases update with
          | Upload ud uf =>
              cases hm : ud.metadata <;> simp [hm, IndexMap.setEntry, hid]
          | Delete s => simp
    rw [hsame, h] at h'
    cases h'
    refine ⟨le_refl _, ?_, ?_⟩
    · intro s _
      rfl
    · intro ud uf _
      exact Or.inl rfl

/-- Witness for C5 at a concrete input: an upload with strictly greater
LSN against an index holding one entry. -/
theorem update_remote_data_lsn_monotone_witness :
    (⟨⟨3, 0⟩, ∅, ∅, false⟩ : RemoteTimeline).metadata.disk_consistent_lsn ≤
      ((update_remote_data (IndexMap.empty.setEntry ⟨0, 1⟩ ⟨⟨3, 0⟩, ∅, ∅, false⟩)
          ⟨0, 1⟩ (RemoteDataUpdate.Upload ⟨∅, {7}, some ⟨4, 0⟩⟩ false) true).newIndex ⟨0, 1⟩
        |>.getD ⟨⟨0, 0⟩, ∅, ∅, false⟩).metadata.disk_consistent_lsn := by
  have h := update_remote_data_lsn_monotone
    (IndexMap.empty.setEntry ⟨0, 1⟩ ⟨⟨3, 0⟩, ∅, ∅, false⟩) ⟨0, 1⟩ ⟨0, 1⟩
    (RemoteDataUpdate.Upload ⟨∅, {7}, some ⟨4, 0⟩⟩ false) true
    ⟨⟨3, 0⟩, ∅, ∅, false⟩ ⟨⟨4, 0⟩, ∅ ∪ {7}, ∅, false⟩ rfl (by
      simp [update_remote_data, IndexMap.setEntry, RemoteTimeline.add_timeline_layers])
  exact h.1

/-- The batch state carried by a `Continue` result of `next_task_batch`
(`Break` yields the empty state). -/
def batchStateOf (r : ControlFlow Unit NextBatchState) : NextBatchState :=
  match r with
  | ControlFlow.Continue st => st
  | ControlFlow.Break _ => ⟨fun _ => none, ∅, ∅⟩

/-- C3 counterexample: with `max_concurrent_syncs = 2` and three queued
tasks from three different tenants sharing one timeline id, the returned
batch map has three distinct (tenant, timeline) keys — the limit check in
`next_task_batch` counts only distinct *timeline* ids
(`batched_timelines.insert(sync_id.timeline_id)`), so the number of
distinct `SyncId` keys can exceed the limit. -/
theorem next_task_batch_key_bound_counterexample :
    ¬ (batchStateOf (next_task_batch
        [(⟨0, 5⟩, SyncTask.download ⟨∅⟩),
          (⟨1, 5⟩, SyncTask.download ⟨∅⟩),
          (⟨2, 5⟩, SyncTask.download ⟨∅⟩)] 2)).taskKeys.card ≤ 2 := by
  decide

/-- Helper for the amended C3: the batch-collection loop keeps the
distinct-timeline count within the limit and every batched key's timeline
id inside `batched_timelines`. -/
theorem next_task_batch_loop_invariant (max : ℕ)
    (l : List (ZTenantTimelineId × SyncTask)) (st : NextBatchState)
    (hcard : st.batched_timelines.card ≤ max)
    (hkeys : ∀ k ∈ st.taskKeys, k.timeline_id ∈ st.batched_timelines) :
    (next_task_batch_loop max l st).batched_timelines.card ≤ max ∧
    ∀ k ∈ (next_task_batch_loop max l st).taskKeys,
      k.timeline_id ∈ (next_task_batch_loop max l st).batched_timelines := by
  induction l generalizing st with
  | nil => exact ⟨hcard, hkeys⟩
  | cons p rest ih =>
      obtain ⟨sync_id, new_task⟩ := p
      by_cases hfull : st.batched_timelines.card ≥ max
      · simp only [next_task_batch_loop, if_pos hfull]
        exact ⟨hcard, hkeys⟩
      · simp only [next_task_batch_loop, if_neg hfull]
        apply ih
        · have hlt : st.batched_timelines.card < max := lt_of_not_ge hfull
          calc (st.pull sync_id new_task).batched_timelines.card
              ≤ st.batched_timelines.card + 1 := Finset.card_insert_le _ _
            _ ≤ max := hlt
        · intro k hk
          rcases Finset.mem_insert.mp hk with h | h
          · subst h
            exact Finset.mem_insert_self _ _
          · exact Finset.mem_insert_of_mem (hkeys k h)

/-- C3 amended: for every queue state and limit `N ≥ 1`, the batch map
returned by `next_task_batch` has at most `N` distinct *timeline ids* among
its (tenant, timeline) keys; the number of distinct (tenant, timeline)
keys themselves is not bounded by `N` (see the counterexample). -/
theorem next_task_batch_timeline_bound
    (queue : List (ZTenantTimelineId × SyncTask)) (max : ℕ) (st : NextBatchState)
    (hmax : 1 ≤ max)
    (h : next_task_batch queue max = ControlFlow.Continue st) :
    (st.taskKeys.image ZTenantTimelineId.timeline_id).card ≤ max := by
  cases queue with
  | nil => cases h
  | cons p rest =>
      obtain ⟨fid, ftask⟩ := p
      simp only [next_task_batch] at h
      cases h
      have inv := next_task_batch_loop_invariant max rest
        ⟨fun id => if id = fid then some (SyncTaskBatch.new ftask) else none,
          {fid}, {fid.timeline_id}⟩
        (by simpa using hmax)
        (by
          intro k hk
          rcases Finset.mem_singleton.mp hk with rfl
          exact Finset.mem_singleton_self _)
      refine le_trans (Finset.card_le_card ?_) inv.1
      exact Finset.image_subset_iff.mpr inv.2

/-- Witness for the amended C3 at a concrete input: one queued task,
limit 1. -/
theorem next_task_batch_timeline_bound_witness :
    ((⟨fun id => if id = ⟨0, 5⟩
          then some (SyncTaskBatch.new (SyncTask.download ⟨∅⟩)) else none,
        {⟨0, 5⟩}, {5}⟩ : NextBatchState).taskKeys.image
      ZTenantTimelineId.timeline_id).card ≤ 1 :=
  next_task_batch_timeline_bound [(⟨0, 5⟩, SyncTask.download ⟨∅⟩)] 1
    ⟨fun id => if id = ⟨0, 5⟩
        then some (SyncTaskBatch.new (SyncTask.download ⟨∅⟩)) else none,
      {⟨0, 5⟩}, {5}⟩ (by decide) (by rfl)

/-- Helper for C6: every task pushed by
`compare_local_and_remote_timeline` is keyed by the compared timeline. -/
theorem compare_pushes_own_key (sync_id : ZTenantTimelineId)
    (m : TimelineMetadata) (files : Finset ℕ) (entry : RemoteTimeline) :
    ∀ p ∈ (compare_local_and_remote_timeline sync_id m files entry).2,
      p.1 = sync_id := by
  intro p hp
  unfold compare_local_and_remote_timeline at hp
  simp only at hp
  rcases List.mem_append.mp hp with h | h <;> split_ifs at h <;> simp at h <;>
    simp [h]

/-- Helper for C6: processing a timeline with a different sync id leaves
the index entry, the status and the pushed tasks of the target sync id
untouched. -/
theorem schedule_step_other_key (st : ScheduleState)
    (e : ZTenantTimelineId × TimelineMetadata × Finset ℕ)
    (sync_id : ZTenantTimelineId) (hne : e.1 ≠ sync_id) :
    (schedule_first_sync_tasks_step st e).index sync_id = st.index sync_id ∧
    (schedule_first_sync_tasks_step st e).statuses sync_id.tenant_id
        sync_id.timeline_id =
      st.statuses sync_id.tenant_id sync_id.timeline_id ∧
    (schedule_first_sync_tasks_step st e).new_sync_tasks.filter
        (fun p => decide (p.1 = sync_id)) =
      st.new_sync_tasks.filter (fun p => decide (p.1 = sync_id)) := by
  have hcomp : ¬(sync_id.tenant_id = e.1.tenant_id ∧
      sync_id.timeline_id = e.1.timeline_id) := by
    rintro ⟨h₁, h₂⟩
    apply hne
    obtain ⟨t₁, t₂⟩ := sync_id
    obtain ⟨u₁, u₂⟩ := e.1
    simp_all
  unfold schedule_first_sync_tasks_step
  cases hentry : st.index e.1 with
  | some rt =>
      simp only [hentry]
      refine ⟨?_, ?_, ?_⟩
      · simp [IndexMap.setEntry, Ne.symm hne]
      · simp [LocalTimelineInitStatuses.insertStatus, hcomp]
      · simp only [List.filter_append]
        have hnil : (compare_local_and_remote_timeline e.1 e.2.1 e.2.2 rt).2.filter
            (fun p => decide (p.1 = sync_id)) = [] := by
          refine List.filter_eq_nil_iff.mpr ?_
          intro p hp
          have := compare_pushes_own_key e.1 e.2.1 e.2.2 rt p hp
          simp [this, hne]
        simp [hnil]
  | none =>
      simp only [hentry]
      refine ⟨trivial, ?_, ?_⟩
      · simp [LocalTimelineInitStatuses.insertStatus, hcomp]
      · simp [List.filter_append, hne]

/-- Helper for C6: folding `schedule_first_sync_tasks_step` over timelines
whose sync ids all differ from the target preserves the target's index
entry, status and filtered task list. -/
theorem schedule_fold_other_keys
    (l : List (ZTenantTimelineId × TimelineMetadata × Finset ℕ))
    (st : ScheduleState) (sync_id : ZTenantTimelineId)
    (hl : ∀ e ∈ l, e.1 ≠ sync_id) :
    (l.foldl schedule_first_sync_tasks_step st).index sync_id = st.index sync_id ∧
    (l.foldl schedule_first_sync_tasks_step st).statuses sync_id.tenant_id
        sync_id.timeline_id =
      st.statuses sync_id.tenant_id sync_id.timeline_id ∧
    (l.foldl schedule_first_sync_tasks_step st).new_sync_tasks.filter
        (fun p => decide (p.1 = sync_id)) =
      st.new_sync_tasks.filter (fun p => decide (p.1 = sync_id)) := by
  induction l generalizing st with
  | nil => exact ⟨rfl, rfl, rfl⟩
  | cons e rest ih =>
      have hstep := schedule_step_other_key st e sync_id (hl e (List.mem_cons_self e rest))
      have hrest := ih (schedule_first_sync_tasks_step st e)
        (fun x hx => hl x (List.mem_cons_of_mem e hx))
      exact ⟨hrest.1.trans hstep.1, hrest.2.1.trans hstep.2.1,
        hrest.2.2.trans hstep.2.2⟩

/-- Helper for C6: the reconciler step at a timeline that has a remote
index entry records the comparison's status, writes the comparison's
`awaits_download` flag into the entry, and appends the comparison's
tasks. -/
theorem schedule_step_own_key (st : ScheduleState)
    (sync_id : ZTenantTimelineId) (m : TimelineMetadata) (files : Finset ℕ)
    (entry : RemoteTimeline) (hentry : st.index sync_id = some entry) :
    schedule_first_sync_tasks_step st (sync_id, m, files) =
      { index := st.index.setEntry sync_id
          { entry with awaits_download :=
              (compare_local_and_remote_timeline sync_id m files entry).1.2 }
        statuses := st.statuses.insertStatus sync_id.tenant_id sync_id.timeline_id
          (compare_local_and_remote_timeline sync_id m files entry).1.1
        new_sync_tasks := st.new_sync_tasks ++
          (compare_local_and_remote_timeline sync_id m files entry).2 } := by
  unfold schedule_first_sync_tasks_step
  simp only [hentry]

/-- C6: at startup, a locally discovered timeline with a remote index
entry whose `stored_files \ local_files` is non-empty gets exactly one
Download task with `layers_to_skip = local_files`, its entry's
`awaits_download` flag set to `true`, and status `NeedsSync`; additionally,
if `local_files \ stored_files` is non-empty, an Upload task carrying
exactly that difference together with the local metadata. -/
theorem reconciler_seeds_download_and_upload (index : IndexMap)
    (locals : List (ZTenantTimelineId × TimelineMetadata × Finset ℕ))
    (sync_id : ZTenantTimelineId) (m : TimelineMetadata) (files : Finset ℕ)
    (entry : RemoteTimeline)
    (hnodup : (locals.map (fun e => e.1)).Nodup)
    (hmem : (sync_id, m, files) ∈ locals)
    (hentry : index sync_id = some entry)
    (hdl : (entry.stored_files \ files).Nonempty) :
    (schedule_first_sync_tasks index locals).statuses sync_id.tenant_id
        sync_id.timeline_id = some LocalTimelineInitStatus.NeedsSync ∧
    ((schedule_first_sync_tasks index locals).index sync_id).map
        RemoteTimeline.awaits_download = some true ∧
    (schedule_first_sync_tasks index locals).new_sync_tasks.filter
        (fun p => decide (p.1 = sync_id)) =
      (sync_id, SyncTask.download ⟨files⟩) ::
        (if files \ entry.stored_files ≠ ∅ then
          [(sync_id, SyncTask.upload ⟨files \ entry.stored_files, ∅, some m⟩)]
        else []) := by
  obtain ⟨l₁, l₂, rfl⟩ := List.append_of_mem hmem
  have hmap : ((l₁ ++ (sync_id, m, files) :: l₂).map (fun e => e.1)).Nodup := hnodup
  rw [List.map_append, List.map_cons] at hmap
  have hdisj := List.disjoint_of_nodup_append hmap
  have hl₁ : ∀ e ∈ l₁, e.1 ≠ sync_id := by
    intro e he heq
    exact hdisj (List.mem_map_of_mem _ he) (by simp [heq])
  have hl₂ : ∀ e ∈ l₂, e.1 ≠ sync_id := by
    have hcons := List.nodup_cons.mp (List.Nodup.of_append_right hmap)
    intro e he heq
    exact hcons.1 (List.mem_map.mpr ⟨e, he, heq⟩)
  unfold schedule_first_sync_tasks
  rw [List.foldl_append, List.foldl_cons]
  have h₁ := schedule_fold_other_keys l₁
    ⟨index, fun _ _ => none, []⟩ sync_id hl₁
  set st₁ := List.foldl schedule_first_sync_tasks_step
    ⟨index, fun _ _ => none, []⟩ l₁ with hst₁
  have hsome : st₁.index sync_id = some entry := h₁.1.trans hentry
  have hcardpos : 0 < (entry.stored_files \ files).card := Finset.card_pos.mpr hdl
  have hcomp : compare_local_and_remote_timeline sync_id m files entry =
      ((LocalTimelineInitStatus.NeedsSync, true),
        (sync_id, SyncTask.download ⟨files⟩) ::
          (if files \ entry.stored_files ≠ ∅ then
            [(sync_id, SyncTask.upload ⟨files \ entry.stored_files, ∅, some m⟩)]
          else [])) := by
    unfold compare_local_and_remote_timeline
    simp only [hcardpos, if_pos]
    split_ifs <;> simp
  rw [schedule_step_own_key st₁ sync_id m files entry hsome, hcomp]
  have h₂ := schedule_fold_other_keys l₂
    { index := st₁.index.setEntry sync_id
        { entry with awaits_download :=
            (((LocalTimelineInitStatus.NeedsSync, true),
              (sync_id, SyncTask.download ⟨files⟩) ::
                (if files \ entry.stored_files ≠ ∅ then
                  [(sync_id, SyncTask.upload ⟨files \ entry.stored_files, ∅, some m⟩)]
                else []))).1.2 }
      statuses := st₁.statuses.insertStatus sync_id.tenant_id sync_id.timeline_id
        (((LocalTimelineInitStatus.NeedsSync, true),
          (sync_id, SyncTask.download ⟨files⟩) ::
            (if files \ entry.stored_files ≠ ∅ then
              [(sync_id, SyncTask.upload ⟨files \ entry.stored_files, ∅, some m⟩)]
            else []))).1.1
      new_sync_tasks := st₁.new_sync_tasks ++
        (((LocalTimelineInitStatus.NeedsSync, true),
          (sync_id, SyncTask.download ⟨files⟩) ::
            (if files \ entry.stored_files ≠ ∅ then
              [(sync_id, SyncTask.upload ⟨files \ entry.stored_files, ∅, some m⟩)]
            else []))).2 } sync_id hl₂
  refine ⟨?_, ?_, ?_⟩
  · rw [h₂.2.1]
    simp [LocalTimelineInitStatuses.insertStatus]
  · rw [h₂.1]
    simp [IndexMap.setEntry]
  · rw [h₂.2.2]
    simp only [List.filter_append, h₁.2.2]
    have hown : List.filter (fun p => decide (p.1 = sync_id))
        ((sync_id, SyncTask.download ⟨files⟩) ::
          (if files \ entry.stored_files ≠ ∅ then
            [(sync_id, SyncTask.upload ⟨files \ entry.stored_files, ∅, some m⟩)]
          else [])) =
        (sync_id, SyncTask.download ⟨files⟩) ::
          (if files \ entry.stored_files ≠ ∅ then
            [(sync_id, SyncTask.upload ⟨files \ entry.stored_files, ∅, some m⟩)]
          else []) := by
      split_ifs <;> simp [List.filter]
    simp only [hown]
    simp

/-- Witness for C6 at a concrete input: remote entry stores `{1, 2}` and
local files are `{1, 3}` — a download of the missing `{2}` and an upload of
the extra `{3}` are both seeded. -/
theorem reconciler_seeds_download_and_upload_witness :
    (schedule_first_sync_tasks
        (IndexMap.empty.setEntry ⟨0, 1⟩ ⟨⟨9, 0⟩, {1, 2}, ∅, false⟩)
        [(⟨0, 1⟩, ⟨7, 0⟩, {1, 3})]).statuses 0 1 =
      some LocalTimelineInitStatus.NeedsSync ∧
    ((schedule_first_sync_tasks
        (IndexMap.empty.setEntry ⟨0, 1⟩ ⟨⟨9, 0⟩, {1, 2}, ∅, false⟩)
        [(⟨0, 1⟩, ⟨7, 0⟩, {1, 3})]).index ⟨0, 1⟩).map
      RemoteTimeline.awaits_download = some true ∧
    (schedule_first_sync_tasks
        (IndexMap.empty.setEntry ⟨0, 1⟩ ⟨⟨9, 0⟩, {1, 2}, ∅, false⟩)
        [(⟨0, 1⟩, ⟨7, 0⟩, {1, 3})]).new_sync_tasks.filter
        (fun p => decide (p.1 = ⟨0, 1⟩)) =
      (⟨0, 1⟩, SyncTask.download ⟨{1, 3}⟩) ::
        (if ({1, 3} : Finset ℕ) \ {1, 2} ≠ ∅ then
          [(⟨0, 1⟩, SyncTask.upload ⟨({1, 3} : Finset ℕ) \ {1, 2}, ∅, some ⟨7, 0⟩⟩)]
        else []) :=
  reconciler_seeds_download_and_upload
    (IndexMap.empty.setEntry ⟨0, 1⟩ ⟨⟨9, 0⟩, {1, 2}, ∅, false⟩)
    [(⟨0, 1⟩, ⟨7, 0⟩, {1, 3})] ⟨0, 1⟩ ⟨7, 0⟩ {1, 3} ⟨⟨9, 0⟩, {1, 2}, ∅, false⟩
    (by decide) (by decide) (by rfl) (by decide)

end StorageSync
